import Mathlib

/-!
Verification development for `fb_commenter.py`, the reply orchestration engine
of the repository: comment discovery (`load_more_comments`), per-comment
context extraction and duplicate detection (`is_already_replied`), reply
composition (`generate_ai_reply` plus the message-selection block of
`reply_to_comments`), profile scraping in a secondary browsing context
(`get_profile_context`), and the driving loop of `reply_to_comments`.

The document surface (Selenium) is nondeterministic and fallible; it is
modelled by explicit behaviour oracles: each operation that can raise a
Python exception is represented by a `Bool` flag or an `Except Unit`
outcome supplied as input, and each scraped value by the data the fixture
presents.  Python strings are modelled as `List Char`.
-/

namespace FbCommenter

/-- Python strings, modelled as lists of characters. -/
abbrev PyStr := List Char

/-- Python truthiness of a string: non-empty. -/
def truthy (s : PyStr) : Bool := !s.isEmpty

/-- Python truthiness of an optional string (`None` and `""` are both falsy). -/
def truthyOpt : Option PyStr → Bool
  | none => false
  | some s => truthy s

/-- Python `str.lower()`, per character. -/
def pyLower (s : PyStr) : PyStr := s.map Char.toLower

/-- The ASCII whitespace characters removed by Python `str.strip()`. -/
def isPySpace (c : Char) : Bool :=
  c = ' ' || c = '\t' || c = '\n' || c = '\r' || c = '\x0b' || c = '\x0c'

/-- Python `str.strip()`: drop whitespace from both ends. -/
def pyStrip (s : PyStr) : PyStr :=
  ((s.dropWhile isPySpace).reverse.dropWhile isPySpace).reverse

/-- Python substring test `needle in hay`. -/
def strContains (hay needle : PyStr) : Bool :=
  match hay with
  | [] => needle.isEmpty
  | _ :: t => needle.isPrefixOf hay || strContains t needle

/-- Python `href.split("?")[0]`: the part of the string before the first
question mark (the whole string when there is none). -/
def splitQuery (href : PyStr) : PyStr := href.takeWhile (fun c => c != '?')

/-- Python `s.replace("\n", " ")`. -/
def replaceNl (s : PyStr) : PyStr := s.map (fun c => if c = '\n' then ' ' else c)

/-- An anchor element as seen through Selenium: `get_attribute("href")`
(which may be `None`) and the rendered `text`. -/
structure DomLink where
  href : Option PyStr
  text : PyStr
deriving DecidableEq

/-- A document node on the ancestor chain above a reply button:
its `role` attribute and the anchor elements found inside it. -/
structure DomNode where
  role : Option PyStr
  links : List DomLink
deriving DecidableEq

/-- The ancestor ascent of `is_already_replied` (fb_commenter.py:273-278):
`parent = reply_btn`, then six times `parent = parent.find_element("..")`,
breaking early when `parent.get_attribute("role") == "article"`.  The input
list is the chain of ancestors above the button, nearest first; running out
of ancestors makes `find_element` raise, modelled as `none`.  The node the
loop ends on (the matching article, or the sixth ancestor) is returned. -/
def ascendLoop : Nat → List DomNode → Option DomNode
  | 0, _ => none
  | _ + 1, [] => none
  | 1, p :: _ => some p
  | n + 2, p :: rest =>
    if p.role = some ("article".data) then some p else ascendLoop (n + 1) rest

/-- The per-link test of `is_already_replied` (fb_commenter.py:285-287):
`txt = link.text.strip()`, then
`fb_name.lower() in txt.lower() and len(txt) < len(fb_name) + 5`. -/
def linkMatches (fb_name : PyStr) (l : DomLink) : Bool :=
  let txt := pyStrip l.text
  strContains (pyLower txt) (pyLower fb_name) && decide (txt.length < fb_name.length + 5)

/-- `is_already_replied(driver, reply_btn, fb_name)` (fb_commenter.py:262-302).
The whole body sits in a `try/except` that turns any failure into `False`;
a detached reply button (every access raises) is modelled by `chain = none`.
Otherwise the container is resolved by `ascendLoop` (its failure is also
caught) and its links are scanned with `linkMatches`. -/
def is_already_replied (chain : Option (List DomNode)) (fb_name : PyStr) : Bool :=
  match chain with
  | none => false
  | some ancestors =>
    match ascendLoop 6 ancestors with
    | none => false
    | some container => container.links.any (linkMatches fb_name)

/-- The two windows a run can have open: the original post tab and the
secondary tab opened for profile scraping. -/
inductive Window | primary | secondary
deriving DecidableEq

/-- Which windows are open and which one Selenium is focused on. -/
structure BrowserState where
  primary_open : Bool
  secondary_open : Bool
  focus : Option Window
deriving DecidableEq

/-- Behaviour oracle for one call of `get_profile_context`:
whether `switch_to.new_window('tab')` raises, whether `driver.get` (or the
load wait) raises, the text of the `Intro` block when one is found, and the
texts of the `role='article'` post containers. -/
structure ProfileBehavior where
  new_tab_raises : Bool
  nav_raises : Bool
  intro : Option PyStr
  posts : List PyStr
deriving DecidableEq

/-- The `context` string accumulated by `get_profile_context`
(fb_commenter.py:75-104) once the secondary tab is open: nothing if
navigation raised; otherwise the intro block (newlines replaced by spaces)
and the first of the first two posts whose stripped text exceeds 50
characters, truncated to 300 characters.  Both scrape steps are wrapped in
their own `try/except: pass`, so their failures are folded into the
`intro = none` / no-qualifying-post cases. -/
def scrape_context (b : ProfileBehavior) : PyStr :=
  if b.nav_raises then []
  else
    (match b.intro with
     | some t => "Profile Intro: ".data ++ replaceNl t ++ ". ".data
     | none => []) ++
    (match (b.posts.take 2).find? (fun t => decide (50 < (pyStrip (replaceNl t)).length)) with
     | some t => "Recent Activity: ".data ++ (pyStrip (replaceNl t)).take 300 ++ "... ".data
     | none => [])

/-- `get_profile_context(driver, profile_url)` (fb_commenter.py:57-116),
modelled for a call entered with the primary window focused.
`if not profile_url: return None` touches nothing.  Otherwise the body runs
under `try/except/finally`.  When `switch_to.new_window` raises, the
`except` swallows it but the `finally` then calls `driver.close()` on the
still-focused primary window and `switch_to.window(original_window)` raises
on the now-closed handle: the call propagates an exception and leaves the
primary window closed.  When the tab opens, every other failure is caught,
the `finally` closes the secondary tab and refocuses the primary one, and
the scraped context is returned only when longer than 10 characters. -/
def get_profile_context (url : Option PyStr) (b : ProfileBehavior) (s : BrowserState) :
    Except Unit (Option PyStr) × BrowserState :=
  if truthyOpt url = false then (.ok none, s)
  else if b.new_tab_raises then
    (.error (), { s with primary_open := false, focus := none })
  else
    let ctx := scrape_context b
    (.ok (if 10 < ctx.length then some ctx else none),
     { primary_open := s.primary_open, secondary_open := false, focus := some .primary })

/-- The double-quote character stripped from generated replies. -/
def quote : Char := '"'

/-- `generate_ai_reply(comment_text, author_name, api_key, profile_context)`
(fb_commenter.py:118-163).  `if not api_key: return None`; the request to
the completion service (whose prompt the function builds from its other
arguments) is opaque and modelled by the `service` outcome; any exception
yields `None`.  On success the content is stripped and one surrounding pair
of double quotes is removed when the text both starts and ends with one
(`reply[1:-1]`). -/
def generate_ai_reply (api_key : Option PyStr) (service : Except Unit PyStr) : Option PyStr :=
  if truthyOpt api_key = false then none
  else
    match service with
    | .error _ => none
    | .ok content =>
      let reply := pyStrip content
      some (if [quote].isPrefixOf reply && [quote].isSuffixOf reply
            then (reply.drop 1).dropLast else reply)

/-- Configuration threaded through `reply_to_comments`: the operator's
display name (`FB_NAME`), the OpenAI key, and the default message. -/
structure Config where
  fb_name : PyStr
  openai_key : Option PyStr
  default_message : Option PyStr

/-- The hardcoded safety string of fb_commenter.py:432. -/
def hardcoded_fallback : PyStr := "Thanks for the comment!".data

/-- The message-selection block of `reply_to_comments`
(fb_commenter.py:420-433): start from `default_message`; when an OpenAI key
is configured and `generate_ai_reply` returns truthy text, use that; if the
selected message is still falsy (`None` or empty), use the hardcoded
fallback. -/
def compose_message (cfg : Config) (service : Except Unit PyStr) : PyStr :=
  let m0 := cfg.default_message
  let m1 := if truthyOpt cfg.openai_key then
              match generate_ai_reply cfg.openai_key service with
              | some r => if truthy r then some r else m0
              | none => m0
            else m0
  match m1 with
  | some m => if truthy m then m else hardcoded_fallback
  | none => hardcoded_fallback

/-- The author-link filter of the extraction block (fb_commenter.py:377-380):
`href and text and len(text) > 2 and "comment" not in href and "photo" not in href`. -/
def link_ok (l : DomLink) : Bool :=
  match l.href with
  | none => false
  | some href =>
    truthy href && truthy l.text && decide (2 < l.text.length)
      && !(strContains href ("comment".data)) && !(strContains href ("photo".data))

/-- The profile-URL cleanup of fb_commenter.py:382-386: keep `profile.php`
links whole (their query carries the id), otherwise `href.split("?")[0]`. -/
def clean_profile_url (href : PyStr) : PyStr :=
  if strContains href ("profile.php".data) then href else splitQuery href

/-- The author-link selection loop of `reply_to_comments`
(fb_commenter.py:376-394): walk the container's anchors in order and take
the first one passing `link_ok`; its text is the author name and its
cleaned href the profile reference. -/
def select_author : List DomLink → Option (PyStr × PyStr)
  | [] => none
  | l :: rest =>
    if link_ok l then some (l.text, clean_profile_url (l.href.getD []))
    else select_author rest

/-- Behaviour oracle for one comment's processing iteration
(fb_commenter.py:350-448): whether resolving the `article` ancestor raises
(caught by the inner extraction `try`), the anchors of that container, the
outcome of the profile scrape, and whether each fallible driver step of the
submission sequence raises. -/
structure CommentBehavior where
  parent_raises : Bool
  links : List DomLink
  profile : Except Unit (Option PyStr)
  scroll_raises : Bool
  dedup_chain : Option (List DomNode)
  click_raises : Bool
  focus_raises : Bool
  service : Except Unit PyStr
  send_raises : Bool

/-- The extraction block (fb_commenter.py:359-397).  It runs inside its own
`try/except` whose handler only prints, so no failure escapes it: a failed
ancestor lookup, no qualifying link, or a raising `get_profile_context`
all degrade to the defaults `author_name = "User"`, `profile_context = None`
(the name keeps its assigned value when only the profile scrape fails,
since the assignment precedes the scrape). -/
def extract_author_ctx (cfg : Config) (b : CommentBehavior) : PyStr × Option PyStr :=
  if b.parent_raises then ("User".data, none)
  else
    match select_author b.links with
    | none => ("User".data, none)
    | some (name, _) =>
      if truthyOpt cfg.openai_key then
        match b.profile with
        | .error _ => (name, none)
        | .ok ctx => (name, ctx)
      else (name, none)

/-- One comment's iteration body (fb_commenter.py:351-444), the contents of
the per-comment `try`.  Extraction cannot raise past its inner handler and
`is_already_replied` and the composer are total, so the steps that can
raise to the per-comment handler are the scroll script, the click (after
its scripted fallback), `switch_to.active_element`, and the key sends.
`.ok none` is the duplicate `continue`; `.ok (some msg)` ends with
`count += 1`; `.error ()` reaches the per-comment `except`. -/
def process_comment (cfg : Config) (b : CommentBehavior) : Except Unit (Option PyStr) :=
  let _actx := extract_author_ctx cfg b
  if b.scroll_raises then .error ()
  else if is_already_replied b.dedup_chain cfg.fb_name then .ok none
  else if b.click_raises then .error ()
  else if b.focus_raises then .error ()
  else
    let msg := compose_message cfg b.service
    if b.send_raises then .error ()
    else .ok (some msg)

/-- The driving loop of `reply_to_comments` (fb_commenter.py:349-448):
`count = 0`, then for each button the body runs under `try/except:
continue`, incrementing `count` only when the body reached `count += 1`. -/
def run_loop (cfg : Config) : List CommentBehavior → Nat → Nat
  | [], count => count
  | b :: rest, count =>
    match process_comment cfg b with
    | .ok (some _) => run_loop cfg rest (count + 1)
    | .ok none => run_loop cfg rest count
    | .error _ => run_loop cfg rest count

/-- The run result of `reply_to_comments` over the snapshot of visible
reply buttons: `attempted` is the number of buttons iterated over,
`succeeded` the final `count` (fb_commenter.py:349-451). -/
def reply_to_comments (cfg : Config) (bs : List CommentBehavior) : Nat × Nat :=
  (bs.length, run_loop cfg bs 0)

/-- Whether a comment behaviour leads to a clean submission. -/
def comment_success (cfg : Config) (b : CommentBehavior) : Bool :=
  match process_comment cfg b with
  | .ok (some _) => true
  | _ => false

/-- One expansion affordance as returned by the round's XPath query:
whether `is_displayed()` holds and whether its scripted click succeeds. -/
structure ExpButton where
  displayed : Bool
  click_ok : Bool
deriving DecidableEq

/-- Behaviour oracle for one round of the expansion loop: whether the
round's driver calls raise before the click phase, and the buttons the
query returns. -/
structure RoundBehavior where
  round_raises : Bool
  buttons : List ExpButton

/-- Why the expansion loop of `load_more_comments` returned. -/
inductive ExitReason
  | debounce
  | stuck
  | raised
  | rounds_exhausted
deriving DecidableEq

/-- Observable result of the expansion loop: rounds begun, the exit taken,
and the final value of `consecutive_no_clicks`. -/
structure LoopResult where
  rounds : Nat
  exit : ExitReason
  final_counter : Nat
deriving DecidableEq

/-- The `is_displayed()` filter of fb_commenter.py:225. -/
def visibleButtons (r : RoundBehavior) : List ExpButton := r.buttons.filter (·.displayed)

/-- `clicked_count` for a round (fb_commenter.py:239-249): each visible
button's click is tried individually and failures are passed over. -/
def clickedCount (r : RoundBehavior) : Nat := (visibleButtons r).countP (·.click_ok)

/-- The expansion loop of `load_more_comments` (fb_commenter.py:203-260):
`for i in range(max_loops)` with `consecutive_no_clicks` as counter `c`.
A raising round breaks out; an empty round increments the counter and
breaks once it exceeds 2; a round with visible buttons resets the counter,
then breaks as stuck when no click succeeded. -/
def expansion_go (beh : Nat → RoundBehavior) : Nat → Nat → Nat → LoopResult
  | 0, i, c => ⟨i, .rounds_exhausted, c⟩
  | fuel + 1, i, c =>
    let r := beh i
    if r.round_raises then ⟨i + 1, .raised, c⟩
    else if (visibleButtons r).isEmpty then
      if 2 < c + 1 then ⟨i + 1, .debounce, c + 1⟩
      else expansion_go beh fuel (i + 1) (c + 1)
    else if clickedCount r = 0 then ⟨i + 1, .stuck, 0⟩
    else expansion_go beh fuel (i + 1) 0

/-- `max_loops = 50` (fb_commenter.py:203). -/
def max_loops : Nat := 50

/-- The expansion phase of `load_more_comments`, started with a fresh
counter.  The preceding scroll and best-effort sort-filter switch
(fb_commenter.py:172-199) run under their own `try/except` and cannot
affect the loop. -/
def load_more_comments (beh : Nat → RoundBehavior) : LoopResult :=
  expansion_go beh max_loops 0 0

/-- Reply-text precedence as the spec states it: generated text when
non-empty, otherwise the operator default when non-empty, otherwise the
hardcoded safety string. -/
def spec_default_tier : Option PyStr → PyStr
  | some d => if truthy d then d else hardcoded_fallback
  | none => hardcoded_fallback

/-- Three-tier precedence over the generated text and the default. -/
def spec_precedence (generated dflt : Option PyStr) : PyStr :=
  match generated with
  | some g => if truthy g then g else spec_default_tier dflt
  | none => spec_default_tier dflt

/-- First-matching-link selection as the spec states it, as a declarative
query rather than a loop. -/
def spec_select_author (links : List DomLink) : Option (PyStr × PyStr) :=
  (links.find? link_ok).map (fun l => (l.text, clean_profile_url (l.href.getD [])))

/-- Quote handling as the amended claim describes it: one surrounding pair
of double quotes is removed exactly when the text both starts and ends with
one; otherwise the text is kept as-is. -/
def strip_quote_pair (s : PyStr) : PyStr :=
  if [quote].isPrefixOf s && [quote].isSuffixOf s then (s.drop 1).dropLast else s

/-- A run configuration with no OpenAI key and default text `"hi"`. -/
def cfg0 : Config := ⟨"You".data, none, some ("hi".data)⟩

/-- A comment whose whole iteration succeeds: its container is an `article`
with no author links, so extraction degrades to defaults, the duplicate
check is negative, and every driver step works. -/
def good_comment : CommentBehavior :=
  ⟨false, [], .ok none, false, some [⟨some ("article".data), []⟩], false, false, .error (), false⟩

/-- The same comment except that sending the reply keystrokes raises. -/
def failing_comment : CommentBehavior := { good_comment with send_raises := true }

/-- A healthy entry state for `get_profile_context`: the primary window is
open and focused and no secondary tab exists. -/
def goodState : BrowserState := ⟨true, false, some .primary⟩

/-- A profile lookup in which opening the secondary tab itself raises. -/
def tabFailBeh : ProfileBehavior := ⟨true, false, none, []⟩

/-- A profile lookup that finds an intro block reading `x`. -/
def introBeh : ProfileBehavior := ⟨false, false, some ("x".data), []⟩

/-- An anchor to a `profile.php` profile, whose id lives in the query. -/
def profileLink : DomLink :=
  ⟨some ("https://facebook.com/profile.php?id=42".data), "Mark".data⟩

/-- A round of the expansion loop that finds no affordances. -/
def emptyRound : RoundBehavior := ⟨false, []⟩

/-- A round that finds one visible, clickable affordance. -/
def busyRound : RoundBehavior := ⟨false, [⟨true, true⟩]⟩

theorem truthy_iff (s : PyStr) : truthy s = true ↔ s ≠ [] := by
  simp [truthy, List.isEmpty_iff]

theorem run_loop_eq (cfg : Config) (bs : List CommentBehavior) (c : Nat) :
    run_loop cfg bs c = c + bs.countP (comment_success cfg) := by
  induction bs generalizing c with
  | nil => simp [run_loop]
  | cons b rest ih =>
    rcases h : process_comment cfg b with e | v
    · simp [run_loop, h, ih, List.countP_cons, comment_success]
    · cases v with
      | none => simp [run_loop, h, ih, List.countP_cons, comment_success]
      | some m =>
        simp [run_loop, h, ih, List.countP_cons, comment_success]
        omega

/-- C3: for every run, `0 ≤ succeeded ≤ attempted`; the count is
accumulated monotonically (never decremented: the loop's running count only
grows), and extending the comment sequence by one comment adds exactly one
on a clean submission and nothing for a skipped duplicate or a failed
comment. -/
theorem run_result_monotone (cfg : Config) (bs : List CommentBehavior)
    (b : CommentBehavior) (c : Nat) :
    0 ≤ (reply_to_comments cfg bs).2
  ∧ (reply_to_comments cfg bs).2 ≤ (reply_to_comments cfg bs).1
  ∧ c ≤ run_loop cfg bs c
  ∧ run_loop cfg (bs ++ [b]) c
      = run_loop cfg bs c + (if comment_success cfg b then 1 else 0) := by
  refine ⟨Nat.zero_le _, ?_, ?_, ?_⟩
  · simpa [reply_to_comments, run_loop_eq] using List.countP_le_length (comment_success cfg) (l := bs)
  · simp [run_loop_eq]
  · simp [run_loop_eq, List.countP_append, List.countP_cons]
    omega

/-- C1: per-comment failure isolation.  For any run, every discovered
comment is iterated over (`attempted` counts them all) and the succeeded
count splits across any decomposition of the sequence, so one comment's
outcome never affects the processing of the others; in the concrete
three-comment scenario where comment #2 raises while sending the reply,
the run yields `attempted = 3`, `succeeded = 2`, and comment #3 is still
processed to a clean submission. -/
theorem per_comment_isolation (cfg : Config) (pre post : List CommentBehavior)
    (b : CommentBehavior) :
    (reply_to_comments cfg (pre ++ b :: post)).1 = pre.length + 1 + post.length
  ∧ (reply_to_comments cfg (pre ++ b :: post)).2
      = (reply_to_comments cfg pre).2 + (if comment_success cfg b then 1 else 0)
        + (reply_to_comments cfg post).2
  ∧ reply_to_comments cfg0 [good_comment, failing_comment, good_comment] = (3, 2)
  ∧ process_comment cfg0 failing_comment = .error ()
  ∧ process_comment cfg0 good_comment = .ok (some ("hi".data)) := by
  refine ⟨?_, ?_, rfl, rfl, rfl⟩
  · simp [reply_to_comments]
    omega
  · simp [reply_to_comments, run_loop_eq, List.countP_append, List.countP_cons]
    omega

theorem spec_default_tier_ne_nil (d : Option PyStr) : spec_default_tier d ≠ [] := by
  cases d with
  | none => simp [spec_default_tier, hardcoded_fallback]
  | some s =>
    by_cases h : truthy s = true
    · simpa [spec_default_tier, h] using (truthy_iff s).mp h
    · simp [spec_default_tier, h, hardcoded_fallback]

theorem spec_precedence_ne_nil (g d : Option PyStr) : spec_precedence g d ≠ [] := by
  cases g with
  | none => simpa [spec_precedence] using spec_default_tier_ne_nil d
  | some r =>
    by_cases h : truthy r = true
    · simpa [spec_precedence, h] using (truthy_iff r).mp h
    · simpa [spec_precedence, h] using spec_default_tier_ne_nil d

theorem compose_eq_spec (cfg : Config) (service : Except Unit PyStr) :
    compose_message cfg service =
      spec_precedence
        (if truthyOpt cfg.openai_key then generate_ai_reply cfg.openai_key service else none)
        cfg.default_message := by
  by_cases hk : truthyOpt cfg.openai_key = true
  · cases hg : generate_ai_reply cfg.openai_key service with
    | none =>
      cases hd : cfg.default_message <;>
        simp [compose_message, spec_precedence, spec_default_tier, hk, hg, hd]
    | some r =>
      by_cases hr : truthy r = true <;> cases hd : cfg.default_message <;>
        simp [compose_message, spec_precedence, spec_default_tier, hk, hg, hr, hd]
  · cases hd : cfg.default_message <;>
      simp [compose_message, spec_precedence, spec_default_tier, hk, hd]

/-- C2: the reply composer never produces empty text, and the text it
produces follows the three-tier precedence: generated text when the key is
configured and the (quote-stripped) generation is non-empty, otherwise the
operator default when non-empty, otherwise the hardcoded safety string. -/
theorem composer_never_empty (cfg : Config) (service : Except Unit PyStr) :
    compose_message cfg service ≠ []
  ∧ compose_message cfg service =
      spec_precedence
        (if truthyOpt cfg.openai_key then generate_ai_reply cfg.openai_key service else none)
        cfg.default_message := by
  have he := compose_eq_spec cfg service
  exact ⟨he ▸ spec_precedence_ne_nil _ _, he⟩

theorem expansion_go_rounds_le (beh : Nat → RoundBehavior) (fuel i c : Nat) :
    (expansion_go beh fuel i c).rounds ≤ i + fuel := by
  induction fuel generalizing i c with
  | zero => simp [expansion_go]
  | succ f ih =>
    simp only [expansion_go]
    split
    · simp
    · split
      · split
        · simp
        · exact le_trans (ih (i + 1) (c + 1)) (by omega)
      · split
        · simp
        · exact le_trans (ih (i + 1) 0) (by omega)

/-- C4: the comment-expansion loop always terminates within `max_loops = 50`
rounds, whatever the document presents; in particular a surface that shows
a clickable expansion affordance on every round runs exactly 50 rounds and
then returns control. -/
theorem discovery_loop_bounded (beh : Nat → RoundBehavior) :
    (load_more_comments beh).rounds ≤ max_loops
  ∧ load_more_comments (fun _ => busyRound) = ⟨max_loops, .rounds_exhausted, 0⟩ := by
  refine ⟨?_, rfl⟩
  simpa [load_more_comments] using expansion_go_rounds_le beh max_loops 0 0

theorem strContains_self (s : PyStr) : strContains s s = true := by
  cases s with
  | nil => rfl
  | cons a t =>
    have h : (a :: t).isPrefixOf (a :: t) = true :=
      (List.isPrefixOf_iff_prefix).mpr (List.prefix_refl _)
    simp [strContains, h]

/-- C5: the duplicate detector answers `true` when the resolved comment
container holds a link whose stripped visible text equals the operator's
display name case-insensitively (such a link automatically satisfies the
length slack `len(txt) < len(fb_name) + 5`); it answers `false` when no
link of the container passes the bounded case-insensitive match; and it
answers `false` when the check fails internally (detached node). -/
theorem duplicate_detector_contract (fb_name : PyStr) (ancestors : List DomNode)
    (container : DomNode) (l : DomLink)
    (hasc : ascendLoop 6 ancestors = some container) :
    (l ∈ container.links → pyLower (pyStrip l.text) = pyLower fb_name →
        is_already_replied (some ancestors) fb_name = true)
  ∧ (container.links.all (fun k => !(linkMatches fb_name k)) = true →
        is_already_replied (some ancestors) fb_name = false)
  ∧ is_already_replied none fb_name = false := by
  refine ⟨?_, ?_, rfl⟩
  · intro hmem heq
    simp only [is_already_replied, hasc, List.any_eq_true]
    refine ⟨l, hmem, ?_⟩
    have hlen : (pyStrip l.text).length = fb_name.length := by
      have hc := congrArg List.length heq
      simpa [pyLower] using hc
    simp only [linkMatches, heq, Bool.and_eq_true, decide_eq_true_eq]
    exact ⟨strContains_self _, by omega⟩
  · intro hall
    simp only [is_already_replied, hasc]
    rw [List.any_eq_false]
    intro k hk
    simpa using (List.all_eq_true.mp hall) k hk

theorem duplicate_detector_contract_witness :
    is_already_replied
        (some [⟨some ("article".data), [⟨some ("x".data), " You ".data⟩]⟩])
        ("You".data) = true
  ∧ is_already_replied
        (some [⟨some ("article".data), [⟨some ("x".data), "Alice".data⟩]⟩])
        ("You".data) = false
  ∧ is_already_replied none ("You".data) = false := by
  refine ⟨?_, ?_, ?_⟩
  · exact (duplicate_detector_contract ("You".data)
      [⟨some ("article".data), [⟨some ("x".data), " You ".data⟩]⟩]
      ⟨some ("article".data), [⟨some ("x".data), " You ".data⟩]⟩
      ⟨some ("x".data), " You ".data⟩ rfl).1 (by decide) (by decide)
  · exact (duplicate_detector_contract ("You".data)
      [⟨some ("article".data), [⟨some ("x".data), "Alice".data⟩]⟩]
      ⟨some ("article".data), [⟨some ("x".data), "Alice".data⟩]⟩
      ⟨some ("x".data), "Alice".data⟩ rfl).2.1 (by decide)
  · exact (duplicate_detector_contract ("You".data)
      [⟨some ("article".data), []⟩] ⟨some ("article".data), []⟩
      ⟨none, []⟩ rfl).2.2

/-- C6 counterexample: when opening the secondary tab itself raises, the
`finally` block closes the still-focused primary window and the switch back
raises on its dead handle, so this exit path of the profile lookup leaves
the primary context closed and unfocused, contradicting the claim that
every exit path restores a focused, open primary context. -/
theorem profile_context_primary_leak :
    (get_profile_context (some ("u".data)) tabFailBeh goodState).1 = .error ()
  ∧ (get_profile_context (some ("u".data)) tabFailBeh goodState).2.primary_open = false
  ∧ (get_profile_context (some ("u".data)) tabFailBeh goodState).2.focus ≠ some .primary := by
  exact ⟨rfl, rfl, by decide⟩

/-- C6 (amended): on every exit path on which the secondary tab was
successfully opened (success, partial scrape failure, or an exception
caught inside the lookup), the secondary context is closed and focus is
restored to the primary context, which is left focused and open; and the
lookup is idempotent: running it again from the state it left behind gives
the same answer and the same final state. -/
theorem profile_context_scoped_release (url : Option PyStr) (b : ProfileBehavior)
    (h : b.new_tab_raises = false) :
    (get_profile_context url b goodState).2 = goodState
  ∧ get_profile_context url b (get_profile_context url b goodState).2
      = get_profile_context url b goodState
  ∧ ∃ v, (get_profile_context url b goodState).1 = .ok v := by
  have hst : (get_profile_context url b goodState).2 = goodState := by
    by_cases hu : truthyOpt url = true
    · simp [get_profile_context, hu, h, goodState]
    · simp [get_profile_context, hu]
  refine ⟨hst, by rw [hst], ?_⟩
  by_cases hu : truthyOpt url = true
  · simp [get_profile_context, hu, h]
  · simp [get_profile_context, hu]

theorem profile_context_scoped_release_witness :
    (get_profile_context (some ("u".data)) introBeh goodState).2 = goodState
  ∧ get_profile_context (some ("u".data)) introBeh
        (get_profile_context (some ("u".data)) introBeh goodState).2
      = get_profile_context (some ("u".data)) introBeh goodState
  ∧ ∃ v, (get_profile_context (some ("u".data)) introBeh goodState).1 = .ok v :=
  profile_context_scoped_release (some ("u".data)) introBeh rfl

/-- C7 counterexample: on a surface that never shows an expansion
affordance the loop exits through the debounce path with the
consecutive-empty counter at exactly 3 — the counter never exceeds 3, so
the claim that the loop stops once the counter exceeds 3 is false (the code
stops as soon as the counter exceeds 2). -/
theorem debounce_threshold_cex :
    (load_more_comments (fun _ => emptyRound)).exit = .debounce
  ∧ ¬(3 < (load_more_comments (fun _ => emptyRound)).final_counter) := by
  exact ⟨rfl, by decide⟩

/-- C7 (amended): every round finding no visible affordance increments the
consecutive-empty counter and the loop stops via the debounce path as soon
as the counter exceeds 2 (that is, on the third consecutive empty round);
every round finding some resets the counter to 0 (breaking as stuck when no
click succeeds); on an always-empty surface the loop therefore runs exactly
3 rounds and exits via debounce with the counter at 3. -/
theorem debounce_counter_mechanism (beh : Nat → RoundBehavior) (fuel i c : Nat)
    (h : (beh i).round_raises = false) :
    expansion_go beh (fuel + 1) i c =
      (if (visibleButtons (beh i)).isEmpty then
         if 2 < c + 1 then ⟨i + 1, .debounce, c + 1⟩
         else expansion_go beh fuel (i + 1) (c + 1)
       else if clickedCount (beh i) = 0 then ⟨i + 1, .stuck, 0⟩
       else expansion_go beh fuel (i + 1) 0)
  ∧ load_more_comments (fun _ => emptyRound) = ⟨3, .debounce, 3⟩ := by
  refine ⟨?_, rfl⟩
  simp [expansion_go, h]

theorem debounce_counter_mechanism_witness :
    load_more_comments (fun _ => emptyRound) = ⟨3, .debounce, 3⟩ :=
  (debounce_counter_mechanism (fun _ => emptyRound) 0 0 0 rfl).2

/-- C8 counterexample: for a first qualifying link whose destination is a
`profile.php` URL the extractor keeps the query string (the id lives
there), so the profile reference is not the query-stripped destination the
claim demands. -/
theorem author_query_strip_cex :
    select_author [profileLink]
      = some ("Mark".data, "https://facebook.com/profile.php?id=42".data)
  ∧ splitQuery ("https://facebook.com/profile.php?id=42".data)
      ≠ "https://facebook.com/profile.php?id=42".data := by
  exact ⟨rfl, by decide⟩

/-- C8 (amended): the extractor selects the first link whose destination is
present and does not point at a photo or comment sub-resource and whose
visible text is longer than 2 characters; that link's text is the author
name, and its destination is the profile reference — query parameters
stripped unless the destination is a `profile.php` link, which is kept
whole. -/
theorem author_link_selection (links : List DomLink) :
    select_author links = spec_select_author links := by
  induction links with
  | nil => rfl
  | cons l rest ih =>
    by_cases h : link_ok l = true
    · simp [select_author, spec_select_author, h]
    · simp [select_author, spec_select_author, h, ih]

/-- C9 counterexample: a generated text that begins with a double quote but
does not end with one is returned unchanged, so the composed generated
reply can begin with a quote character. -/
theorem quote_strip_cex :
    generate_ai_reply (some ("k".data)) (.ok ("\"hello".data))
      = some ("\"hello".data)
  ∧ [quote].isPrefixOf ("\"hello".data) = true := by
  exact ⟨rfl, rfl⟩

/-- C9 (amended): for every text returned by the generative service the
composer strips surrounding whitespace and then removes exactly one
surrounding pair of double quotes when the text both begins and ends with
one, returning it unchanged otherwise — so an unbalanced or doubled quote
can survive at either end. -/
theorem quote_pair_stripping (api_key : Option PyStr) (raw : PyStr)
    (h : truthyOpt api_key = true) :
    generate_ai_reply api_key (.ok raw) = some (strip_quote_pair (pyStrip raw)) := by
  simp [generate_ai_reply, h, strip_quote_pair]

theorem quote_pair_stripping_witness :
    generate_ai_reply (some ("k".data)) (.ok (" \"hi\" ".data)) = some ("hi".data) :=
  (quote_pair_stripping (some ("k".data)) (" \"hi\" ".data) rfl).trans (by decide)

/-- C10: the profile lookup returns no summary when the profile reference
is absent or empty — in that case it returns immediately, leaving the
browser state untouched — and every summary it does return is longer than
10 characters. -/
theorem profile_summary_contract (url : Option PyStr) (b : ProfileBehavior)
    (s : BrowserState) (t : PyStr)
    (h : (get_profile_context url b s).1 = .ok (some t)) :
    10 < t.length
  ∧ get_profile_context none b s = (.ok none, s)
  ∧ get_profile_context (some []) b s = (.ok none, s) := by
  refine ⟨?_, rfl, rfl⟩
  by_cases hu : truthyOpt url = true
  · by_cases ht : b.new_tab_raises = true
    · simp [get_profile_context, hu, ht] at h
    · simp [get_profile_context, hu, ht] at h
      by_cases hlen : 10 < (scrape_context b).length
      · simp only [hlen, if_true] at h
        exact h.2 ▸ hlen
      · simp [hlen] at h
  · simp [get_profile_context, hu] at h

theorem profile_summary_contract_witness :
    10 < (("Profile Intro: x. ".data : PyStr)).length
  ∧ get_profile_context none introBeh goodState = (.ok none, goodState)
  ∧ get_profile_context (some []) introBeh goodState = (.ok none, goodState) :=
  profile_summary_contract (some ("u".data)) introBeh goodState
    ("Profile Intro: x. ".data) rfl

end FbCommenter
